import Mathlib

/-!
Shallow embedding of the hypothesis-generation and statistical-testing core of the
data-practitioner expansion pack (python-analysis/hypothesis_generation.py and
python-analysis/statistical_testing.py).

Modelling conventions:
* Python floats are modelled as exact rationals.
* A pandas cell is `Cell.null` (NaN), a numeric value, or a categorical value; a
  DataFrame is a column-name list plus a list of rows, each row a function from
  column names to cells.  Series operations dropna / isnull / pairwise deletion
  are modelled exactly.
* External numerical routines (scipy and statsmodels test statistics, numpy
  sqrt / log / exp, random subsampling) are abstracted into an `Oracle`
  parameter; every line of code written in this repository itself is modelled
  directly.
* Python exceptions are modelled with `Except String`; a bare `except` clause
  becomes a `match` on the `Except` value of the protected call.
-/

inductive Cell where
  | null : Cell
  | num (q : ℚ) : Cell
  | cat (s : String) : Cell
  deriving DecidableEq, Repr

structure DataFrame where
  cols : List String
  rows : List (String → Cell)

structure Series where
  name : String
  cells : List Cell

/-- Models pandas Series.dropna: keep the non-NaN cells. -/
def dropna (s : List Cell) : List Cell :=
  s.filter (fun c => decide (c ≠ Cell.null))

/-- Numeric values of a list of cells (categorical cells carry no number). -/
def numsOf (s : List Cell) : List ℚ :=
  s.filterMap (fun c => match c with | Cell.num q => some q | _ => none)

/-- Models pandas Series.mean over the given (already non-null) values. -/
def qmean (xs : List ℚ) : ℚ :=
  xs.sum / (xs.length : ℚ)

/-- Models pandas Series.var (sample variance, ddof = 1) over the given values. -/
def qvar (xs : List ℚ) : ℚ :=
  ((xs.map (fun x => (x - qmean xs) ^ 2)).sum) / ((xs.length : ℚ) - 1)

/-- Models data[v]: the column v of a DataFrame as a Series. -/
def colSeries (df : DataFrame) (v : String) : Series :=
  ⟨v, df.rows.map (fun r => r v)⟩

/-- Models data[v].isnull().sum(). -/
def nullCount (df : DataFrame) (v : String) : ℕ :=
  (df.rows.filter (fun r => decide (r v = Cell.null))).length

/-- Models data[v].isnull().sum() / len(data) (numpy division: 0/0 is treated as
no penalty both in the code, where it yields NaN failing both > comparisons,
and here, where division by zero yields 0). -/
def nullFrac (df : DataFrame) (v : String) : ℚ :=
  (nullCount df v : ℚ) / (df.rows.length : ℚ)

/-- Models len(data.dropna(subset=vars)): rows with no null among vars. -/
def completeRows (df : DataFrame) (vars : List String) : ℕ :=
  (df.rows.filter (fun r => vars.all (fun v => decide (r v ≠ Cell.null)))).length

/-- Container for generated hypotheses (dataclass Hypothesis). -/
structure Hypothesis where
  id : String
  statement : String
  null_hypothesis : String
  alternative_hypothesis : String
  vars : List String
  variable_types : List (String × String)
  statistical_test : String
  expected_direction : Option String := none
  expected_effect_size : Option String := none
  rationale : Option String := none
  supporting_evidence : Option (List String) := none
  confidence : Option ℚ := none
  priority : Option String := none
  testability_score : Option ℚ := none
  business_relevance : Option String := none
  deriving DecidableEq, Repr

def defaultHypothesis : Hypothesis :=
  { id := "", statement := "", null_hypothesis := "", alternative_hypothesis := "",
    vars := [], variable_types := [], statistical_test := "" }

/-- Container for hypothesis validation results (dataclass HypothesisValidation). -/
structure HypothesisValidation where
  hypothesis_id : String
  is_testable : Bool
  data_availability : List (String × Bool)
  statistical_power : Option ℚ
  sample_size_adequacy : Bool
  assumption_checks : List (String × Bool)
  feasibility_score : ℚ
  recommendations : List String
  deriving DecidableEq, Repr

/-- One entry of the exploratory summary correlation lists. -/
structure CorrelationEntry where
  var1 : String
  var2 : String
  correlation : ℚ
  deriving DecidableEq, Repr

def defaultCorrelationEntry : CorrelationEntry := ⟨"", "", 0⟩

/-- The correlations section of the exploratory summary; absent keys default to
empty lists, mirroring .get with a default of []. -/
structure CorrelationsSection where
  strong_positive : List CorrelationEntry := []
  strong_negative : List CorrelationEntry := []
  deriving DecidableEq, Repr

/-- Hypothesis built for one strong positive correlation entry
(HypothesisGenerator._generate_correlation_hypotheses, first loop).  The .3f
float formatting of the Python f-strings is modelled by toString. -/
def mkPositiveCorrelationHypothesis (e : CorrelationEntry) : Hypothesis :=
  { id := "corr_pos_" ++ e.var1 ++ "_" ++ e.var2,
    statement := e.var1 ++ " is positively correlated with " ++ e.var2,
    null_hypothesis := "There is no correlation between " ++ e.var1 ++ " and " ++ e.var2,
    alternative_hypothesis :=
      "There is a positive correlation between " ++ e.var1 ++ " and " ++ e.var2,
    vars := [e.var1, e.var2],
    variable_types := [(e.var1, "numeric"), (e.var2, "numeric")],
    statistical_test := "pearson_correlation",
    expected_direction := some "positive",
    expected_effect_size := some (if (7 : ℚ)/10 < e.correlation then "large" else "medium"),
    rationale := some ("EDA shows strong positive correlation (r = " ++
      toString e.correlation ++ ")"),
    supporting_evidence := some ["Observed correlation: " ++ toString e.correlation],
    confidence := some (min |e.correlation| ((19 : ℚ)/20)),
    business_relevance := some ("Understanding relationship between " ++ e.var1 ++
      " and " ++ e.var2 ++ " can inform business strategy") }

/-- Hypothesis built for one strong negative correlation entry
(HypothesisGenerator._generate_correlation_hypotheses, second loop). -/
def mkNegativeCorrelationHypothesis (e : CorrelationEntry) : Hypothesis :=
  { id := "corr_neg_" ++ e.var1 ++ "_" ++ e.var2,
    statement := e.var1 ++ " is negatively correlated with " ++ e.var2,
    null_hypothesis := "There is no correlation between " ++ e.var1 ++ " and " ++ e.var2,
    alternative_hypothesis :=
      "There is a negative correlation between " ++ e.var1 ++ " and " ++ e.var2,
    vars := [e.var1, e.var2],
    variable_types := [(e.var1, "numeric"), (e.var2, "numeric")],
    statistical_test := "pearson_correlation",
    expected_direction := some "negative",
    expected_effect_size := some (if (7 : ℚ)/10 < |e.correlation| then "large" else "medium"),
    rationale := some ("EDA shows strong negative correlation (r = " ++
      toString e.correlation ++ ")"),
    supporting_evidence := some ["Observed correlation: " ++ toString e.correlation],
    confidence := some (min |e.correlation| ((19 : ℚ)/20)),
    business_relevance := some ("Understanding inverse relationship between " ++ e.var1 ++
      " and " ++ e.var2 ++ " can guide optimization") }

/-- HypothesisGenerator._generate_correlation_hypotheses: one hypothesis per
strong positive entry followed by one per strong negative entry; a missing
correlations key yields no hypotheses. -/
def generate_correlation_hypotheses (corrs : Option CorrelationsSection) : List Hypothesis :=
  match corrs with
  | none => []
  | some c =>
      c.strong_positive.map mkPositiveCorrelationHypothesis ++
      c.strong_negative.map mkNegativeCorrelationHypothesis

/-- HypothesisGenerator._is_plausible_causal_relationship: the curated allow-list
of business-plausible causal pairs, checked in both orders on lowercased names. -/
def causal_patterns : List (String × String) :=
  [("marketing_spend", "sales_revenue"),
   ("price", "sales_volume"),
   ("customer_satisfaction", "repeat_purchases"),
   ("training_hours", "performance"),
   ("experience", "salary")]

def is_plausible_causal_relationship (var1 var2 : String) : Bool :=
  decide ((var1.toLower, var2.toLower) ∈ causal_patterns) ||
  decide ((var2.toLower, var1.toLower) ∈ causal_patterns)

/-- Hypothesis built for one plausible causal pair
(HypothesisGenerator._generate_causation_hypotheses). -/
def mkCausalHypothesis (e : CorrelationEntry) : Hypothesis :=
  { id := "causal_" ++ e.var1 ++ "_" ++ e.var2,
    statement := "Changes in " ++ e.var1 ++ " cause changes in " ++ e.var2,
    null_hypothesis := e.var1 ++ " has no causal effect on " ++ e.var2,
    alternative_hypothesis := e.var1 ++ " has a significant causal effect on " ++ e.var2,
    vars := [e.var1, e.var2],
    variable_types := [(e.var1, "numeric"), (e.var2, "numeric")],
    statistical_test := "causal_inference",
    expected_direction := some (if 0 < e.correlation then "positive" else "negative"),
    expected_effect_size := some "medium",
    rationale := some ("Strong correlation (" ++ toString e.correlation ++
      ") suggests potential causal relationship"),
    supporting_evidence := some ["Strong correlation: " ++ toString e.correlation,
      "Temporal/logical precedence plausible"],
    confidence := some ((3 : ℚ)/5),
    business_relevance := some ("If " ++ e.var1 ++ " causes " ++ e.var2 ++
      ", interventions on " ++ e.var1 ++ " could impact " ++ e.var2) }

/-- HypothesisGenerator._generate_causation_hypotheses: causal hypotheses for the
strong positive correlation pairs passing the plausibility allow-list. -/
def generate_causation_hypotheses (corrs : Option CorrelationsSection) : List Hypothesis :=
  match corrs with
  | none => []
  | some c =>
      c.strong_positive.filterMap (fun e =>
        if is_plausible_causal_relationship e.var1 e.var2 then
          some (mkCausalHypothesis e)
        else none)

/-- Hypothesis built for one multivariate prediction target
(HypothesisGenerator._generate_prediction_hypotheses). -/
def mkPredictionHypothesis (numericVars : List String) (outcome : String)
    (tops : List String) : Hypothesis :=
  { id := "pred_" ++ outcome ++ "_multi",
    statement := outcome ++ " can be predicted from " ++ String.intercalate ", " tops,
    null_hypothesis := "The predictors " ++ String.intercalate ", " tops ++
      " have no predictive relationship with " ++ outcome,
    alternative_hypothesis := "The predictors " ++ String.intercalate ", " tops ++
      " significantly predict " ++ outcome,
    vars := outcome :: tops,
    variable_types := (outcome :: tops).map (fun v =>
      (v, if v ∈ numericVars then "numeric" else "categorical")),
    statistical_test := "multiple_regression",
    expected_direction := some "prediction",
    expected_effect_size := some "medium",
    rationale := some ("Multiple variables may collectively predict " ++ outcome),
    supporting_evidence := some ["Multiple potential predictors identified"],
    confidence := some ((13 : ℚ)/20),
    business_relevance := some ("Predictive model for " ++ outcome ++
      " can support decision making") }

/-- HypothesisGenerator._generate_prediction_hypotheses.  The dtype split of the
DataFrame and the pandas per-column variance are supplied as inputs (numericVars,
catVars, varOf); constant columns (variance zero) are skipped, and a prediction
hypothesis is emitted per remaining numeric outcome with at least two candidate
predictors, keeping the first three predictors. -/
def generate_prediction_hypotheses (numericVars catVars : List String)
    (varOf : String → ℚ) : List Hypothesis :=
  numericVars.filterMap (fun outcome =>
    if varOf outcome = 0 then none
    else
      let predictors := (numericVars ++ catVars).filter (fun v => decide (v ≠ outcome))
      if 2 ≤ predictors.length then
        some (mkPredictionHypothesis numericVars outcome (predictors.take 3))
      else none)

/-- Per-variable data-quality factor of
HypothesisGenerator._calculate_testability_score: a missing column multiplies the
score by 0.3; otherwise a missing-value fraction above 0.3 multiplies by 0.7 and
one above 0.1 by 0.9. -/
def qualityOf (frac : ℚ) : ℚ :=
  if (3 : ℚ)/10 < frac then (7 : ℚ)/10
  else if (1 : ℚ)/10 < frac then (9 : ℚ)/10
  else 1

def columnFactor (df : DataFrame) (v : String) : ℚ :=
  if v ∈ df.cols then qualityOf (nullFrac df v) else (3 : ℚ)/10

/-- Sample-size factor of _calculate_testability_score: below min_sample_size
multiply by 0.5, below twice that by 0.8. -/
def sampleSizeFactor (minSampleSize n : ℕ) : ℚ :=
  if n < minSampleSize then (1 : ℚ)/2
  else if n < minSampleSize * 2 then (4 : ℚ)/5
  else 1

/-- Simplicity bonus of _calculate_testability_score: two-variable hypotheses
with more than 100 complete rows get a 1.1 bonus. -/
def simplicityBonus (numVars n : ℕ) : ℚ :=
  if numVars ≤ 2 ∧ 100 < n then (11 : ℚ)/10 else 1

/-- HypothesisGenerator._calculate_testability_score with a loaded dataset.
The per-variable loop multiplies the score by columnFactor; the subsequent call
data.dropna(subset=hypothesis.variables) raises a pandas KeyError whenever some
listed variable is not a column of the frame, which aborts the computation (the
Python has no handler for it), hence the Except error in that case. -/
def calculate_testability_score (minSampleSize : ℕ) (df : DataFrame)
    (h : Hypothesis) : Except String ℚ :=
  let score := h.vars.foldl (fun s v => s * columnFactor df v) 1
  if h.vars.all (fun v => decide (v ∈ df.cols)) then
    let n := completeRows df h.vars
    Except.ok (min (score * sampleSizeFactor minSampleSize n *
      simplicityBonus h.vars.length n) 1)
  else
    Except.error "KeyError: dropna subset names a column not in the DataFrame"

/-- HypothesisGenerator._estimate_correlation_power (simplified lookup). -/
def estimate_correlation_power (n : ℕ) : ℚ :=
  if n < 10 then (1 : ℚ)/10
  else if n < 30 then (1 : ℚ)/2
  else if n < 100 then (7 : ℚ)/10
  else (9 : ℚ)/10

/-- HypothesisGenerator._estimate_anova_power (simplified lookup). -/
def estimate_anova_power (n : ℕ) : ℚ :=
  if n < 30 then (3 : ℚ)/10
  else if n < 100 then (3 : ℚ)/5
  else (17 : ℚ)/20

/-- HypothesisGenerator._check_basic_assumptions: conservative placeholders. -/
def check_basic_assumptions : List (String × Bool) :=
  [("independence", true), ("normality", true), ("linearity", true),
   ("homoscedasticity", true)]

/-- HypothesisGenerator._calculate_feasibility_score: 30 percent availability
fraction, 30 percent adequacy flag, 20 percent power (0.7 when absent),
20 percent assumption fraction. -/
def calculate_feasibility_score (avail : List (String × Bool))
    (adequate : Bool) (power : Option ℚ) (assumptions : List (String × Bool)) : ℚ :=
  let dataScore := ((avail.filter (fun p => p.2)).length : ℚ) / (avail.length : ℚ)
  let sampleScore : ℚ := if adequate then 1 else (1 : ℚ)/2
  let powerScore := power.getD ((7 : ℚ)/10)
  let assumptionScore :=
    ((assumptions.filter (fun p => p.2)).length : ℚ) / (assumptions.length : ℚ)
  dataScore * ((3 : ℚ)/10) + sampleScore * ((3 : ℚ)/10) +
    powerScore * ((2 : ℚ)/10) + assumptionScore * ((2 : ℚ)/10)

/-- HypothesisGenerator._generate_validation_recommendations.  The numeric
interpolations of the Python f-strings are modelled by toString. -/
def generate_validation_recommendations (h : Hypothesis)
    (avail : List (String × Bool)) (adequate : Bool) (power : Option ℚ)
    (powerThreshold : ℚ) (minSampleSize : ℕ) : List String :=
  let missing := (avail.filter (fun p => !p.2)).map (fun p => p.1)
  (if missing ≠ [] then
    ["Collect data for missing variables: " ++ String.intercalate ", " missing]
   else []) ++
  (if !adequate then
    ["Increase sample size to at least " ++ toString minSampleSize ++
     " for adequate power"]
   else []) ++
  (match power with
   | some p =>
       if p ≠ 0 ∧ p < powerThreshold then
         ["Current power (" ++ toString p ++ ") below threshold (" ++
          toString powerThreshold ++
          "). Consider larger sample or effect size"]
       else []
   | none => []) ++
  (if h.statistical_test = "causal_inference" then
    ["Consider randomized experiment or natural experiment for causal inference"]
   else []) ++
  ["Validate statistical assumptions before testing",
   "Consider multiple comparison corrections if testing multiple hypotheses"]

/-- HypothesisGenerator._validate_single_hypothesis with a loaded dataset.
data_availability records membership of each variable among the columns, but the
next statement, data.dropna(subset=hypothesis.variables), raises a pandas
KeyError whenever some listed variable is missing from the frame, so validation
aborts there (the Python has no handler for it). -/
def validate_single_hypothesis (minSampleSize : ℕ) (powerThreshold : ℚ)
    (df : DataFrame) (h : Hypothesis) : Except String HypothesisValidation :=
  let avail := h.vars.map (fun v => (v, decide (v ∈ df.cols)))
  if h.vars.all (fun v => decide (v ∈ df.cols)) then
    let n := completeRows df h.vars
    let adequate := decide (minSampleSize ≤ n)
    let power :=
      if h.statistical_test = "pearson_correlation" then estimate_correlation_power n
      else if h.statistical_test = "anova_one_way" ∨ h.statistical_test = "comparison" then
        estimate_anova_power n
      else if adequate then (4 : ℚ)/5 else (3 : ℚ)/5
    let assumptions := check_basic_assumptions
    let feas := calculate_feasibility_score avail adequate (some power) assumptions
    Except.ok
      { hypothesis_id := h.id,
        is_testable := decide ((3 : ℚ)/5 < feas),
        data_availability := avail,
        statistical_power := some power,
        sample_size_adequacy := adequate,
        assumption_checks := assumptions,
        feasibility_score := feas,
        recommendations :=
          generate_validation_recommendations h avail adequate (some power)
            powerThreshold minSampleSize }
  else
    Except.error "KeyError: dropna subset names a column not in the DataFrame"

/-- Container for statistical test results (dataclass TestResult, in its
to_dict form used by the batch executor, which is where the Corrector adds the
corrected_p_value key).  The field vars models the dataclass field named
variables, a reserved word in Lean. -/
structure TestResult where
  test_name : String
  statistic : ℚ
  p_value : Option ℚ
  vars : List String
  sample_sizes : List ℕ
  effect_size : Option ℚ := none
  confidence_interval : Option (ℚ × ℚ) := none
  assumptions_met : Option (List (String × Bool)) := none
  interpretation : Option String := none
  corrected_p_value : Option ℚ := none
  deriving DecidableEq, Repr

def defaultTestResult : TestResult :=
  { test_name := "", statistic := 0, p_value := none, vars := [], sample_sizes := [] }

/-- One element of the test_specifications list: the test identifier plus the
variable list (absent variables keys default to []). -/
structure TestSpec where
  test : String
  vars : List String
  deriving DecidableEq, Repr

/-- The external numerical routines used by StatisticalTester, abstracted as
inputs: scipy and statsmodels statistics (each returning the tuple the Python
destructures), numpy sqrt / log / exp on floats, and the random 5000-row
subsample that Shapiro-Wilk draws.  kpss and acorr_ljungbox may raise, which
the corresponding wrappers catch; every other routine returns normally on the
inputs this code hands it. -/
structure Oracle where
  sample5000 : List Cell → List Cell
  sqrtq : ℚ → ℚ
  lnq : ℚ → ℚ
  expq : ℚ → ℚ
  shapiro : List ℚ → ℚ × ℚ
  kstestNorm : List ℚ → ℚ × ℚ
  anderson : List ℚ → ℚ × List ℚ
  jarqueBera : List ℚ → ℚ × ℚ
  ttestInd : List ℚ → List ℚ → ℚ × ℚ
  ttestRel : List ℚ → List ℚ → ℚ × ℚ
  mannwhitneyu : List ℚ → List ℚ → ℚ × ℚ
  wilcoxon : List ℚ → List ℚ → ℚ × ℚ
  fOneway : List (List ℚ) → ℚ × ℚ
  kruskal : List (List ℚ) → ℚ × ℚ
  levene : List (List ℚ) → ℚ × ℚ
  bartlett : List (List ℚ) → ℚ × ℚ
  pearsonr : List (ℚ × ℚ) → ℚ × ℚ
  spearmanr : List (ℚ × ℚ) → ℚ × ℚ
  kendalltau : List (ℚ × ℚ) → ℚ × ℚ
  chi2Contingency : List (Cell × Cell) → ℚ × ℚ
  fisherExact : List (Cell × Cell) → ℚ × ℚ
  adfuller : List ℚ → ℚ × ℚ
  kpss : List ℚ → Except String (ℚ × ℚ)
  ljungbox : List ℚ → ℕ → Except String (ℚ × ℚ)

/-- StatisticalTester.test_shapiro_wilk: subsample above 5000 observations,
then test the non-null values. -/
def test_shapiro_wilk (o : Oracle) (s : Series) : TestResult :=
  let cells := if 5000 < s.cells.length then o.sample5000 s.cells else s.cells
  let clean := dropna cells
  let sp := o.shapiro (numsOf clean)
  { test_name := "Shapiro-Wilk Normality Test", statistic := sp.1, p_value := some sp.2,
    vars := [s.name], sample_sizes := [clean.length],
    interpretation := some "Higher p-value indicates more normal-like distribution" }

/-- StatisticalTester.test_kolmogorov_smirnov_normality: the comparison against
a normal law with the sample mean and std is inside the scipy call. -/
def test_kolmogorov_smirnov_normality (o : Oracle) (s : Series) : TestResult :=
  let clean := dropna s.cells
  let sp := o.kstestNorm (numsOf clean)
  { test_name := "Kolmogorov-Smirnov Normality Test", statistic := sp.1,
    p_value := some sp.2, vars := [s.name], sample_sizes := [clean.length] }

/-- StatisticalTester.test_anderson_darling: scipy returns a statistic and the
critical-value array (five entries for dist=norm); the code reports the
approximate p-value 0.05 when the statistic exceeds critical_values[2] (the
5 percent critical value) and 0.10 otherwise. -/
def test_anderson_darling (o : Oracle) (s : Series) : TestResult :=
  let clean := dropna s.cells
  let res := o.anderson (numsOf clean)
  { test_name := "Anderson-Darling Normality Test", statistic := res.1,
    p_value := some (if res.2.getD 2 0 < res.1 then (1 : ℚ)/20 else (1 : ℚ)/10),
    vars := [s.name], sample_sizes := [clean.length] }

/-- StatisticalTester.test_jarque_bera. -/
def test_jarque_bera (o : Oracle) (s : Series) : TestResult :=
  let clean := dropna s.cells
  let sp := o.jarqueBera (numsOf clean)
  { test_name := "Jarque-Bera Normality Test", statistic := sp.1,
    p_value := some sp.2, vars := [s.name], sample_sizes := [clean.length] }

/-- StatisticalTester.test_independent_t_test: the p-value comes from scipy on
the cleaned samples; the pooled-variance effect size is computed in the code
with len over the raw series and pandas mean / var, which skip NaN. -/
def test_independent_t_test (o : Oracle) (s1 s2 : Series) : TestResult :=
  let c1 := numsOf (dropna s1.cells)
  let c2 := numsOf (dropna s2.cells)
  let sp := o.ttestInd c1 c2
  let pooled_std := o.sqrtq ((((s1.cells.length : ℚ) - 1) * qvar c1 +
    ((s2.cells.length : ℚ) - 1) * qvar c2) /
    ((s1.cells.length : ℚ) + (s2.cells.length : ℚ) - 2))
  { test_name := "Independent Samples t-test", statistic := sp.1, p_value := some sp.2,
    vars := [s1.name, s2.name],
    sample_sizes := [(dropna s1.cells).length, (dropna s2.cells).length],
    effect_size := some ((qmean c1 - qmean c2) / pooled_std) }

/-- StatisticalTester.test_paired_t_test: the difference series subtracts
index-aligned values with NaN propagation, and mean / std skip NaN, so the
effect size is over the pairwise-complete differences. -/
def test_paired_t_test (o : Oracle) (s1 s2 : Series) : TestResult :=
  let c1 := numsOf (dropna s1.cells)
  let c2 := numsOf (dropna s2.cells)
  let sp := o.ttestRel c1 c2
  let diffs := (s1.cells.zip s2.cells).filterMap (fun p =>
    match p.1, p.2 with
    | Cell.num a, Cell.num b => some (a - b)
    | _, _ => none)
  { test_name := "Paired Samples t-test", statistic := sp.1, p_value := some sp.2,
    vars := [s1.name, s2.name], sample_sizes := [(dropna s1.cells).length],
    effect_size := some (qmean diffs / o.sqrtq (qvar diffs)) }

/-- StatisticalTester.test_mann_whitney_u. -/
def test_mann_whitney_u (o : Oracle) (s1 s2 : Series) : TestResult :=
  let sp := o.mannwhitneyu (numsOf (dropna s1.cells)) (numsOf (dropna s2.cells))
  { test_name := "Mann-Whitney U Test", statistic := sp.1, p_value := some sp.2,
    vars := [s1.name, s2.name],
    sample_sizes := [(dropna s1.cells).length, (dropna s2.cells).length] }

/-- StatisticalTester.test_wilcoxon_signed_rank. -/
def test_wilcoxon_signed_rank (o : Oracle) (s1 s2 : Series) : TestResult :=
  let sp := o.wilcoxon (numsOf (dropna s1.cells)) (numsOf (dropna s2.cells))
  { test_name := "Wilcoxon Signed-Rank Test", statistic := sp.1, p_value := some sp.2,
    vars := [s1.name, s2.name], sample_sizes := [(dropna s1.cells).length] }

/-- StatisticalTester.test_one_way_anova with its eta-squared effect size
(SS_between / SS_total over the concatenated cleaned groups, 0 when SS_total is
not positive). -/
def test_one_way_anova (o : Oracle) (ss : List Series) : TestResult :=
  let cleans := ss.map (fun s => numsOf (dropna s.cells))
  let sp := o.fOneway cleans
  let allVals := cleans.flatten
  let grand := qmean allVals
  let ssBetween := (cleans.map (fun g => (g.length : ℚ) * (qmean g - grand) ^ 2)).sum
  let ssTotal := (allVals.map (fun x => (x - grand) ^ 2)).sum
  { test_name := "One-way ANOVA", statistic := sp.1, p_value := some sp.2,
    vars := ss.map (fun s => s.name),
    sample_sizes := ss.map (fun s => (dropna s.cells).length),
    effect_size := some (if 0 < ssTotal then ssBetween / ssTotal else 0) }

/-- StatisticalTester.test_kruskal_wallis. -/
def test_kruskal_wallis (o : Oracle) (ss : List Series) : TestResult :=
  let sp := o.kruskal (ss.map (fun s => numsOf (dropna s.cells)))
  { test_name := "Kruskal-Wallis Test", statistic := sp.1, p_value := some sp.2,
    vars := ss.map (fun s => s.name),
    sample_sizes := ss.map (fun s => (dropna s.cells).length) }

/-- StatisticalTester.test_levene. -/
def test_levene (o : Oracle) (ss : List Series) : TestResult :=
  let sp := o.levene (ss.map (fun s => numsOf (dropna s.cells)))
  { test_name := "Levene Test for Equal Variances", statistic := sp.1,
    p_value := some sp.2, vars := ss.map (fun s => s.name),
    sample_sizes := ss.map (fun s => (dropna s.cells).length) }

/-- StatisticalTester.test_bartlett. -/
def test_bartlett (o : Oracle) (ss : List Series) : TestResult :=
  let sp := o.bartlett (ss.map (fun s => numsOf (dropna s.cells)))
  { test_name := "Bartlett Test for Equal Variances", statistic := sp.1,
    p_value := some sp.2, vars := ss.map (fun s => s.name),
    sample_sizes := ss.map (fun s => (dropna s.cells).length) }

/-- Pairwise deletion for the two-column frame the correlation tests build:
keep index-aligned pairs where both values are numeric (non-NaN). -/
def pairedNums (c1 c2 : List Cell) : List (ℚ × ℚ) :=
  (c1.zip c2).filterMap (fun p =>
    match p.1, p.2 with
    | Cell.num a, Cell.num b => some (a, b)
    | _, _ => none)

/-- StatisticalTester.test_pearson_correlation with the Fisher z-transform
confidence interval (1.96 two-sided normal quantile), the transcendental steps
going through the oracle log / exp / sqrt. -/
def test_pearson_correlation (o : Oracle) (s1 s2 : Series) : TestResult :=
  let pairs := pairedNums s1.cells s2.cells
  let sp := o.pearsonr pairs
  let n := pairs.length
  let zr := (1 : ℚ)/2 * o.lnq ((1 + sp.1) / (1 - sp.1))
  let se := 1 / o.sqrtq ((n : ℚ) - 3)
  let zLower := zr - (49 : ℚ)/25 * se
  let zUpper := zr + (49 : ℚ)/25 * se
  { test_name := "Pearson Product-Moment Correlation", statistic := sp.1,
    p_value := some sp.2, vars := [s1.name, s2.name], sample_sizes := [n],
    effect_size := some sp.1,
    confidence_interval := some
      ((o.expq (2 * zLower) - 1) / (o.expq (2 * zLower) + 1),
       (o.expq (2 * zUpper) - 1) / (o.expq (2 * zUpper) + 1)) }

/-- StatisticalTester.test_spearman_correlation. -/
def test_spearman_correlation (o : Oracle) (s1 s2 : Series) : TestResult :=
  let pairs := pairedNums s1.cells s2.cells
  let sp := o.spearmanr pairs
  { test_name := "Spearman Rank Correlation", statistic := sp.1, p_value := some sp.2,
    vars := [s1.name, s2.name], sample_sizes := [pairs.length],
    effect_size := some sp.1 }

/-- StatisticalTester.test_kendall_tau. -/
def test_kendall_tau (o : Oracle) (s1 s2 : Series) : TestResult :=
  let pairs := pairedNums s1.cells s2.cells
  let sp := o.kendalltau pairs
  { test_name := "Kendall Tau Correlation", statistic := sp.1, p_value := some sp.2,
    vars := [s1.name, s2.name], sample_sizes := [pairs.length],
    effect_size := some sp.1 }

/-- pd.crosstab drops index-aligned pairs where either value is NaN; the
resulting observations feed the categorical tests. -/
def pairedCells (c1 c2 : List Cell) : List (Cell × Cell) :=
  (c1.zip c2).filter (fun p =>
    decide (p.1 ≠ Cell.null) && decide (p.2 ≠ Cell.null))

/-- Shape of the pd.crosstab contingency table: distinct first values by
distinct second values among the complete pairs. -/
def crosstabShape (pairs : List (Cell × Cell)) : ℕ × ℕ :=
  ((pairs.map Prod.fst).dedup.length, (pairs.map Prod.snd).dedup.length)

/-- StatisticalTester.test_chi_square_independence with the Cramer V effect
size sqrt(chi2 / (n * (min(rows, cols) - 1))). -/
def test_chi_square_independence (o : Oracle) (s1 s2 : Series) : TestResult :=
  let pairs := pairedCells s1.cells s2.cells
  let sp := o.chi2Contingency pairs
  let n := pairs.length
  let shape := crosstabShape pairs
  { test_name := "Chi-square Test of Independence", statistic := sp.1,
    p_value := some sp.2, vars := [s1.name, s2.name],
    sample_sizes := [(dropna s1.cells).length],
    effect_size := some (o.sqrtq (sp.1 / ((n : ℚ) * ((min shape.1 shape.2 : ℚ) - 1)))) }

/-- StatisticalTester.test_fisher_exact: a contingency table that is not
exactly 2x2 raises ValueError before any statistic is computed. -/
def test_fisher_exact (o : Oracle) (s1 s2 : Series) : Except String TestResult :=
  let pairs := pairedCells s1.cells s2.cells
  if crosstabShape pairs ≠ (2, 2) then
    Except.error "ValueError: Fisher exact test requires 2x2 contingency table"
  else
    let sp := o.fisherExact pairs
    Except.ok
      { test_name := "Fisher Exact Test", statistic := sp.1, p_value := some sp.2,
        vars := [s1.name, s2.name], sample_sizes := [(dropna s1.cells).length] }

/-- StatisticalTester.test_augmented_dickey_fuller. -/
def test_augmented_dickey_fuller (o : Oracle) (s : Series) : TestResult :=
  let clean := dropna s.cells
  let sp := o.adfuller (numsOf clean)
  { test_name := "Augmented Dickey-Fuller Test", statistic := sp.1,
    p_value := some sp.2, vars := [s.name], sample_sizes := [clean.length],
    interpretation := some "Lower p-value indicates stationarity" }

/-- StatisticalTester.test_kpss_stationarity: a bare except converts any
failure of the statsmodels kpss call into statistic 0 and p-value 1. -/
def test_kpss_stationarity (o : Oracle) (s : Series) : TestResult :=
  let clean := dropna s.cells
  let sp := match o.kpss (numsOf clean) with
    | Except.ok v => v
    | Except.error _ => (0, 1)
  { test_name := "KPSS Stationarity Test", statistic := sp.1, p_value := some sp.2,
    vars := [s.name], sample_sizes := [clean.length],
    interpretation := some "Higher p-value indicates stationarity" }

/-- StatisticalTester.test_ljung_box: the statistic and p-value of the final
lag row; a bare except converts any failure into statistic 0 and p-value 1. -/
def test_ljung_box (o : Oracle) (s : Series) (lags : ℕ := 10) : TestResult :=
  let clean := dropna s.cells
  let sp := match o.ljungbox (numsOf clean) lags with
    | Except.ok v => v
    | Except.error _ => (0, 1)
  { test_name := "Ljung-Box Test for Autocorrelation", statistic := sp.1,
    p_value := some sp.2, vars := [s.name], sample_sizes := [clean.length] }

/-- StatisticalTester.calculate_cohens_d: pooled-variance standardized mean
difference over the cleaned samples; no p-value. -/
def calculate_cohens_d (o : Oracle) (s1 s2 : Series) : TestResult :=
  let c1 := numsOf (dropna s1.cells)
  let c2 := numsOf (dropna s2.cells)
  let pooled_std := o.sqrtq ((((c1.length : ℚ) - 1) * qvar c1 +
    ((c2.length : ℚ) - 1) * qvar c2) / ((c1.length : ℚ) + (c2.length : ℚ) - 2))
  let d := (qmean c1 - qmean c2) / pooled_std
  { test_name := "Cohens d Effect Size", statistic := d, p_value := none,
    vars := [s1.name, s2.name], sample_sizes := [c1.length, c2.length],
    effect_size := some d }

/-- StatisticalTester.calculate_hedges_g: Cohen d times the small-sample bias
correction factor 1 - 3 / (4 (n1 + n2 - 2) - 1). -/
def calculate_hedges_g (o : Oracle) (s1 s2 : Series) : TestResult :=
  let c1 := numsOf (dropna s1.cells)
  let c2 := numsOf (dropna s2.cells)
  let pooled_std := o.sqrtq ((((c1.length : ℚ) - 1) * qvar c1 +
    ((c2.length : ℚ) - 1) * qvar c2) / ((c1.length : ℚ) + (c2.length : ℚ) - 2))
  let d := (qmean c1 - qmean c2) / pooled_std
  let g := d * (1 - 3 / (4 * ((c1.length : ℚ) + (c2.length : ℚ) - 2) - 1))
  { test_name := "Hedges g Effect Size", statistic := g, p_value := none,
    vars := [s1.name, s2.name], sample_sizes := [c1.length, c2.length],
    effect_size := some g }

/-- Models data[v] on a DataFrame: a missing column raises a pandas KeyError. -/
def seriesOf (df : DataFrame) (v : String) : Except String Series :=
  if v ∈ df.cols then Except.ok (colSeries df v)
  else Except.error ("KeyError: " ++ v)

/-- Variable-count precondition helpers for the _run_* dispatch wrappers. -/
def requireOne (df : DataFrame) (vs : List String) (msg : String)
    (k : Series → TestResult) : Except String TestResult :=
  if vs.length ≠ 1 then Except.error msg
  else do
    let s ← seriesOf df (vs.getD 0 "")
    Except.ok (k s)

def requireTwo (df : DataFrame) (vs : List String) (msg : String)
    (k : Series → Series → TestResult) : Except String TestResult :=
  if vs.length ≠ 2 then Except.error msg
  else do
    let s1 ← seriesOf df (vs.getD 0 "")
    let s2 ← seriesOf df (vs.getD 1 "")
    Except.ok (k s1 s2)

def requireAtLeastTwo (df : DataFrame) (vs : List String) (msg : String)
    (k : List Series → TestResult) : Except String TestResult :=
  if vs.length < 2 then Except.error msg
  else do
    let ss ← vs.mapM (seriesOf df)
    Except.ok (k ss)

/-- StatisticalTester._run_fisher_exact: two variables, then the 2x2 check of
test_fisher_exact. -/
def run_fisher_exact (o : Oracle) (df : DataFrame) (vs : List String) :
    Except String TestResult :=
  if vs.length ≠ 2 then
    Except.error "Fisher exact test requires exactly two variables"
  else do
    let s1 ← seriesOf df (vs.getD 0 "")
    let s2 ← seriesOf df (vs.getD 1 "")
    test_fisher_exact o s1 s2

/-- StatisticalTester._execute_single_test: the dispatch table mapping test
identifiers to their wrappers (each wrapper enforcing its variable-count
precondition and pulling its columns off the frame). -/
def test_methods (o : Oracle) :
    List (String × (DataFrame → List String → Except String TestResult)) :=
  [("shapiro_wilk", fun df vs =>
      requireOne df vs "Shapiro-Wilk test requires exactly one variable"
        (test_shapiro_wilk o)),
   ("kolmogorov_smirnov", fun df vs =>
      requireOne df vs "KS normality test requires exactly one variable"
        (test_kolmogorov_smirnov_normality o)),
   ("anderson_darling", fun df vs =>
      requireOne df vs "Anderson-Darling test requires exactly one variable"
        (test_anderson_darling o)),
   ("jarque_bera", fun df vs =>
      requireOne df vs "Jarque-Bera test requires exactly one variable"
        (test_jarque_bera o)),
   ("t_test_independent", fun df vs =>
      requireTwo df vs "Independent t-test requires exactly two variables"
        (test_independent_t_test o)),
   ("t_test_paired", fun df vs =>
      requireTwo df vs "Paired t-test requires exactly two variables"
        (test_paired_t_test o)),
   ("mann_whitney_u", fun df vs =>
      requireTwo df vs "Mann-Whitney test requires exactly two variables"
        (test_mann_whitney_u o)),
   ("wilcoxon_signed_rank", fun df vs =>
      requireTwo df vs "Wilcoxon test requires exactly two variables"
        (test_wilcoxon_signed_rank o)),
   ("anova_one_way", fun df vs =>
      requireAtLeastTwo df vs "One-way ANOVA requires at least two variables"
        (test_one_way_anova o)),
   ("kruskal_wallis", fun df vs =>
      requireAtLeastTwo df vs "Kruskal-Wallis test requires at least two variables"
        (test_kruskal_wallis o)),
   ("levene_test", fun df vs =>
      requireAtLeastTwo df vs "Levene test requires at least two variables"
        (test_levene o)),
   ("bartlett_test", fun df vs =>
      requireAtLeastTwo df vs "Bartlett test requires at least two variables"
        (test_bartlett o)),
   ("pearson_correlation", fun df vs =>
      requireTwo df vs "Pearson correlation requires exactly two variables"
        (test_pearson_correlation o)),
   ("spearman_correlation", fun df vs =>
      requireTwo df vs "Spearman correlation requires exactly two variables"
        (test_spearman_correlation o)),
   ("kendall_tau", fun df vs =>
      requireTwo df vs "Kendall tau requires exactly two variables"
        (test_kendall_tau o)),
   ("chi_square_independence", fun df vs =>
      requireTwo df vs "Chi-square independence test requires exactly two variables"
        (test_chi_square_independence o)),
   ("fisher_exact", run_fisher_exact o),
   ("augmented_dickey_fuller", fun df vs =>
      requireOne df vs "ADF test requires exactly one variable"
        (test_augmented_dickey_fuller o)),
   ("kpss_test", fun df vs =>
      requireOne df vs "KPSS test requires exactly one variable"
        (test_kpss_stationarity o)),
   ("ljung_box", fun df vs =>
      requireOne df vs "Ljung-Box test requires exactly one variable"
        (fun s => test_ljung_box o s)),
   ("cohens_d", fun df vs =>
      requireTwo df vs "Cohens d requires exactly two variables"
        (calculate_cohens_d o)),
   ("hedges_g", fun df vs =>
      requireTwo df vs "Hedges g requires exactly two variables"
        (calculate_hedges_g o))]

/-- StatisticalTester._execute_single_test: an unknown test identifier is
logged and yields None (ok none); a found wrapper may raise. -/
def execute_single_test (o : Oracle) (df : DataFrame) (spec : TestSpec) :
    Except String (Option TestResult) :=
  match (test_methods o).lookup spec.test with
  | none => Except.ok none
  | some f => (f df spec.vars).map some

/-- The per-specification loop of StatisticalTester.execute_test_suite: each
raising specification is logged and skipped, each None result dropped,
successful results collected in input order. -/
def exec_results (o : Oracle) (df : DataFrame) (specs : List TestSpec) :
    List TestResult :=
  specs.foldl (fun acc spec =>
    match execute_single_test o df spec with
    | Except.ok (some r) => acc ++ [r]
    | Except.ok none => acc
    | Except.error _ => acc) []

/-- Insertion step of the insertion sort modelling np.argsort. -/
def insertBy {α : Type} (le : α → α → Bool) (x : α) : List α → List α
  | [] => [x]
  | y :: ys => if le x y then x :: y :: ys else y :: insertBy le x ys

/-- Insertion sort by a boolean comparison (the corrected values never depend
on how argsort breaks ties, so a stable insertion sort is an adequate model of
the numpy sort). -/
def sortBy {α : Type} (le : α → α → Bool) : List α → List α
  | [] => []
  | x :: xs => insertBy le x (sortBy le xs)

/-- Running minimum continuing from m (np.minimum.accumulate tail). -/
def minAccumFrom (m : ℚ) : List ℚ → List ℚ
  | [] => []
  | x :: xs => min m x :: minAccumFrom (min m x) xs

/-- np.minimum.accumulate. -/
def minAccum : List ℚ → List ℚ
  | [] => []
  | x :: xs => x :: minAccumFrom x xs

/-- Running maximum continuing from m (np.maximum.accumulate tail). -/
def maxAccumFrom (m : ℚ) : List ℚ → List ℚ
  | [] => []
  | x :: xs => max m x :: maxAccumFrom (max m x) xs

/-- np.maximum.accumulate. -/
def maxAccum : List ℚ → List ℚ
  | [] => []
  | x :: xs => x :: maxAccumFrom x xs

/-- statsmodels multipletests with method fdr_bh (fdrcorrection): sort
ascending, divide by the ecdf factor (i+1)/n, take suffix minima, clip at 1,
and scatter back to the original positions. -/
def benjaminiHochbergCorrect (ps : List ℚ) : List ℚ :=
  let n := ps.length
  let sorted := sortBy (fun a b => decide (a.2 ≤ b.2)) ps.enum
  let raw := sorted.enum.map (fun ip => ip.2.2 * (n : ℚ) / ((ip.1 : ℚ) + 1))
  let clipped := ((minAccum raw.reverse).reverse).map (fun c => min c 1)
  (sortBy (fun a b => decide (a.1 ≤ b.1)) ((sorted.map Prod.fst).zip clipped)).map
    Prod.snd

/-- statsmodels multipletests with method bonferroni: multiply each p-value by
the test count and clip at 1. -/
def bonferroniCorrect (ps : List ℚ) : List ℚ :=
  ps.map (fun p => min (p * (ps.length : ℚ)) 1)

/-- statsmodels multipletests with method holm: sort ascending, multiply the
i-th smallest by n - i, take prefix maxima, clip at 1, and scatter back. -/
def holmCorrect (ps : List ℚ) : List ℚ :=
  let n := ps.length
  let sorted := sortBy (fun a b => decide (a.2 ≤ b.2)) ps.enum
  let raw := sorted.enum.map (fun ip => ip.2.2 * ((n : ℚ) - (ip.1 : ℚ)))
  let clipped := (maxAccum raw).map (fun c => min c 1)
  (sortBy (fun a b => decide (a.1 ≤ b.1)) ((sorted.map Prod.fst).zip clipped)).map
    Prod.snd

/-- StatisticalTester._apply_multiple_comparison_correction: the three known
methods return the statsmodels-corrected array (whose .tolist() succeeds); any
other configured method falls through to the no-correction branch, where
corrected_p_values is a plain Python list and the return statement
corrected_p_values.tolist() raises AttributeError. -/
def apply_multiple_comparison_correction (method : String) (ps : List ℚ) :
    Except String (List ℚ) :=
  if method = "benjamini_hochberg" then Except.ok (benjaminiHochbergCorrect ps)
  else if method = "bonferroni" then Except.ok (bonferroniCorrect ps)
  else if method = "holm" then Except.ok (holmCorrect ps)
  else Except.error "AttributeError: list object has no attribute tolist"

/-- The write-back loop of execute_test_suite: walk the results in order and
give the i-th result having a p-value the i-th corrected value.  The corrected
list always has exactly as many entries as there are results with a p-value
(multipletests is length-preserving), so the branch that would exhaust it (an
IndexError in Python) is unreachable in the modelled call and leaves the
result unchanged. -/
def writeBackCorrected : List TestResult → List ℚ → List TestResult
  | [], _ => []
  | r :: rs, cs =>
      match r.p_value with
      | some _ =>
          match cs with
          | c :: cs2 => { r with corrected_p_value := some c } :: writeBackCorrected rs cs2
          | [] => r :: writeBackCorrected rs []
      | none => r :: writeBackCorrected rs cs

/-- The correction phase of execute_test_suite: only batches with more than one
collected result and at least one non-absent p-value are corrected. -/
def correction_phase (method : String) (results : List TestResult) :
    Except String (List TestResult) :=
  if 1 < results.length then
    let ps := results.filterMap (fun r => r.p_value)
    if ps.isEmpty then Except.ok results
    else
      match apply_multiple_comparison_correction method ps with
      | Except.error e => Except.error e
      | Except.ok cs => Except.ok (writeBackCorrected results cs)
  else Except.ok results

/-- StatisticalTester.execute_test_suite: run the specifications (skipping
failures), then apply the correction phase; an exception escaping the
correction phase aborts the whole call (the surrounding metadata dict is
elided as it carries no tested content). -/
def execute_test_suite (o : Oracle) (method : String) (df : DataFrame)
    (specs : List TestSpec) : Except String (List TestResult) :=
  correction_phase method (exec_results o df specs)

/-- A concrete oracle whose routines all return normally, used to evaluate the
embedded code on concrete inputs. -/
def oracleEx : Oracle :=
  { sample5000 := fun c => c, sqrtq := fun q => q, lnq := fun _ => 0,
    expq := fun _ => 1, shapiro := fun _ => (0, 0), kstestNorm := fun _ => (0, 0),
    anderson := fun _ => (1, [0, 0, 0, 0, 0]), jarqueBera := fun _ => (0, 0),
    ttestInd := fun _ _ => (0, 0), ttestRel := fun _ _ => (0, 0),
    mannwhitneyu := fun _ _ => (0, 0), wilcoxon := fun _ _ => (0, 0),
    fOneway := fun _ => (0, 0), kruskal := fun _ => (0, 0),
    levene := fun _ => (0, 0), bartlett := fun _ => (0, 0),
    pearsonr := fun _ => (0, 0), spearmanr := fun _ => (0, 0),
    kendalltau := fun _ => (0, 0), chi2Contingency := fun _ => (0, 0),
    fisherExact := fun _ => (1, 1), adfuller := fun _ => (0, 0),
    kpss := fun _ => Except.ok (0, 1), ljungbox := fun _ _ => Except.ok (0, 1) }

/-- A concrete oracle whose statsmodels kpss and acorr_ljungbox calls fail. -/
def oracleTSFail : Oracle :=
  { oracleEx with
    kpss := fun _ => Except.error "LinAlgError",
    ljungbox := fun _ _ => Except.error "ValueError" }

/-- A concrete two-column numeric frame. -/
def dfEx : DataFrame :=
  ⟨["x", "y"],
   [fun v => if v = "x" then Cell.num 1 else Cell.num 2,
    fun v => if v = "x" then Cell.num 3 else Cell.num 5]⟩

def seriesEx : Series := ⟨"x", [Cell.num 1, Cell.num 3, Cell.null]⟩

/-- C5: for every numeric input series, the Anderson-Darling wrapper reports the
oracle statistic unchanged and maps the critical-value crossing to the two-level
p-value: 0.05 exactly when the statistic exceeds critical_values[2] (scipy
returns the critical values for the 15, 10, 5, 2.5 and 1 percent levels, so
index 2 is the 5 percent critical value, coherent with reporting 0.05), and
0.10 otherwise. -/
theorem c5_anderson_darling_two_level (o : Oracle) (s : Series) :
    (test_anderson_darling o s).statistic = (o.anderson (numsOf (dropna s.cells))).1
    ∧ ((test_anderson_darling o s).p_value = some ((1 : ℚ)/20) ↔
        (o.anderson (numsOf (dropna s.cells))).2.getD 2 0 <
          (o.anderson (numsOf (dropna s.cells))).1)
    ∧ ((test_anderson_darling o s).p_value = some ((1 : ℚ)/10) ↔
        ¬ (o.anderson (numsOf (dropna s.cells))).2.getD 2 0 <
          (o.anderson (numsOf (dropna s.cells))).1) := by
  refine ⟨rfl, ?_, ?_⟩ <;>
    · simp only [test_anderson_darling]
      split <;> simp_all

/-- C10: the KPSS and Ljung-Box wrappers never propagate a failure of the
underlying statsmodels routine: whenever the oracle call fails, they return a
TestResult with statistic 0 and p-value 1. -/
theorem c10_kpss_ljungbox_silent_fallback (o : Oracle) (s : Series) (lags : ℕ) :
    (∀ e : String, o.kpss (numsOf (dropna s.cells)) = Except.error e →
      (test_kpss_stationarity o s).statistic = 0 ∧
      (test_kpss_stationarity o s).p_value = some 1)
    ∧ (∀ e : String, o.ljungbox (numsOf (dropna s.cells)) lags = Except.error e →
      (test_ljung_box o s lags).statistic = 0 ∧
      (test_ljung_box o s lags).p_value = some 1) := by
  constructor <;> intro e he <;>
    simp [test_kpss_stationarity, test_ljung_box, he]

theorem c10_witness :
    (test_kpss_stationarity oracleTSFail seriesEx).statistic = 0
    ∧ (test_kpss_stationarity oracleTSFail seriesEx).p_value = some 1
    ∧ (test_ljung_box oracleTSFail seriesEx 10).statistic = 0
    ∧ (test_ljung_box oracleTSFail seriesEx 10).p_value = some 1 := by
  have h := c10_kpss_ljungbox_silent_fallback oracleTSFail seriesEx 10
  exact ⟨(h.1 "LinAlgError" rfl).1, (h.1 "LinAlgError" rfl).2,
    (h.2 "ValueError" rfl).1, (h.2 "ValueError" rfl).2⟩

/-- C7: Fisher exact raises exactly on contingency tables that are not 2x2: a
pair of variables whose cross-tabulated table is not 2x2 yields an error, and a
pair whose table is exactly 2x2 yields a TestResult without raising. -/
theorem c7_fisher_exact_2x2 (o : Oracle) (s1 s2 : Series) :
    (crosstabShape (pairedCells s1.cells s2.cells) ≠ (2, 2) →
      test_fisher_exact o s1 s2 =
        Except.error "ValueError: Fisher exact test requires 2x2 contingency table")
    ∧ (crosstabShape (pairedCells s1.cells s2.cells) = (2, 2) →
      ∃ r : TestResult, test_fisher_exact o s1 s2 = Except.ok r) := by
  constructor <;> intro h
  · simp [test_fisher_exact, h]
  · refine ⟨({ test_name := "Fisher Exact Test", statistic := (o.fisherExact (pairedCells s1.cells s2.cells)).1, p_value := some (o.fisherExact (pairedCells s1.cells s2.cells)).2, vars := [s1.name, s2.name], sample_sizes := [(dropna s1.cells).length] } : TestResult), ?_⟩
    simp [test_fisher_exact, h]

def fisherBad1 : Series := ⟨"g", [Cell.cat "a", Cell.cat "b", Cell.cat "c"]⟩
def fisherBad2 : Series := ⟨"o", [Cell.cat "x", Cell.cat "y", Cell.cat "x"]⟩
def fisherGood1 : Series := ⟨"g", [Cell.cat "a", Cell.cat "a", Cell.cat "b", Cell.cat "b"]⟩
def fisherGood2 : Series := ⟨"o", [Cell.cat "x", Cell.cat "y", Cell.cat "x", Cell.cat "y"]⟩

theorem c7_witness :
    test_fisher_exact oracleEx fisherBad1 fisherBad2 =
      Except.error "ValueError: Fisher exact test requires 2x2 contingency table"
    ∧ ∃ r : TestResult, test_fisher_exact oracleEx fisherGood1 fisherGood2 =
        Except.ok r :=
  ⟨(c7_fisher_exact_2x2 oracleEx fisherBad1 fisherBad2).1 (by decide),
   (c7_fisher_exact_2x2 oracleEx fisherGood1 fisherGood2).2 (by decide)⟩

def dfOneColumn : DataFrame := ⟨["x"], [fun _ => Cell.num 1]⟩

def hypMissingColumn : Hypothesis :=
  { defaultHypothesis with
    id := "corr_pos_x_missing_col",
    vars := ["x", "missing_col"],
    statistical_test := "pearson_correlation" }

/-- C3: a hypothesis naming a column absent from the dataset does NOT validate
to a HypothesisValidation record, and its testability score is not merely
degraded: both _validate_single_hypothesis and _calculate_testability_score
call data.dropna(subset=hypothesis.variables), and pandas raises KeyError when
the subset names a column that is not in the frame, so the computation aborts
(contradicting the degrade-and-report handling that the surrounding code
clearly intends with its 0.3 penalty, its data_availability map and its
missing-variable recommendation text, all of which become unreachable). -/
theorem c3_missing_column_raises :
    validate_single_hypothesis 30 ((4 : ℚ)/5) dfOneColumn hypMissingColumn =
      Except.error "KeyError: dropna subset names a column not in the DataFrame"
    ∧ calculate_testability_score 30 dfOneColumn hypMissingColumn =
      Except.error "KeyError: dropna subset names a column not in the DataFrame" := by
  constructor <;> rfl

theorem getD_append_map_left {α β : Type} (l1 l2 : List α) (f g : α → β)
    (i : ℕ) (hi : i < l1.length) (d : β) (da : α) :
    (l1.map f ++ l2.map g).getD i d = f (l1.getD i da) := by
  rw [List.getD_eq_getElem?_getD, List.getElem?_append_left (by simpa using hi),
    List.getElem?_map, List.getElem?_eq_getElem hi]
  simp [List.getD_eq_getElem?_getD, List.getElem?_eq_getElem hi]

theorem getD_append_map_right {α β : Type} (l1 l2 : List α) (f g : α → β)
    (j : ℕ) (hj : j < l2.length) (d : β) (da : α) :
    (l1.map f ++ l2.map g).getD (l1.length + j) d = g (l2.getD j da) := by
  rw [List.getD_eq_getElem?_getD,
    List.getElem?_append_right (by simp)]
  have harith : l1.length + j - (List.map f l1).length = j := by simp
  rw [harith, List.getElem?_map, List.getElem?_eq_getElem hj]
  simp [List.getD_eq_getElem?_getD, List.getElem?_eq_getElem hj]

/-- C1 (amended): for the entries of the exploratory summary correlation
lists, the generator emits exactly one hypothesis per entry (positives first,
then negatives, so the list length is the sum and the i-th output corresponds
to the i-th entry), each with statistical_test pearson_correlation and
confidence min(|r|, 0.95); the expected effect size is large exactly when
|r| > 0.7 for strong negative entries, while for strong positive entries the
code compares the signed correlation, r > 0.7 (the two agree whenever a
strong positive entry indeed has r > 0). -/
theorem c1_correlation_hypothesis_fields (c : CorrelationsSection) (i j : ℕ) :
    (generate_correlation_hypotheses (some c)).length =
      c.strong_positive.length + c.strong_negative.length
    ∧ (i < c.strong_positive.length →
        ((generate_correlation_hypotheses (some c)).getD i defaultHypothesis).statistical_test = "pearson_correlation"
        ∧ ((generate_correlation_hypotheses (some c)).getD i defaultHypothesis).confidence =
            some (min |(c.strong_positive.getD i defaultCorrelationEntry).correlation| ((19 : ℚ)/20))
        ∧ ((generate_correlation_hypotheses (some c)).getD i defaultHypothesis).expected_effect_size =
            some (if (7 : ℚ)/10 < (c.strong_positive.getD i defaultCorrelationEntry).correlation then "large" else "medium"))
    ∧ (j < c.strong_negative.length →
        ((generate_correlation_hypotheses (some c)).getD (c.strong_positive.length + j) defaultHypothesis).statistical_test = "pearson_correlation"
        ∧ ((generate_correlation_hypotheses (some c)).getD (c.strong_positive.length + j) defaultHypothesis).confidence =
            some (min |(c.strong_negative.getD j defaultCorrelationEntry).correlation| ((19 : ℚ)/20))
        ∧ ((generate_correlation_hypotheses (some c)).getD (c.strong_positive.length + j) defaultHypothesis).expected_effect_size =
            some (if (7 : ℚ)/10 < |(c.strong_negative.getD j defaultCorrelationEntry).correlation| then "large" else "medium")) := by
  refine ⟨by simp [generate_correlation_hypotheses], fun hi => ?_, fun hj => ?_⟩
  · simp only [generate_correlation_hypotheses]
    rw [getD_append_map_left _ _ _ _ i hi _ defaultCorrelationEntry]
    exact ⟨rfl, rfl, rfl⟩
  · simp only [generate_correlation_hypotheses]
    rw [getD_append_map_right _ _ _ _ j hj _ defaultCorrelationEntry]
    exact ⟨rfl, rfl, rfl⟩

/-- A strong positive entry carrying a negative correlation of large
magnitude: |r| = 0.8 > 0.7. -/
def cexCorrelations : CorrelationsSection := ⟨[⟨"a", "b", -(4/5)⟩], []⟩

theorem c1_counterexample :
    ((generate_correlation_hypotheses (some cexCorrelations)).getD 0 defaultHypothesis).expected_effect_size = some "medium"
    ∧ (7 : ℚ)/10 < |(-(4/5) : ℚ)|
    ∧ some "medium" ≠ some (if (7 : ℚ)/10 < |(-(4/5) : ℚ)| then "large" else "medium") := by
  have habs : |(-(4/5) : ℚ)| = 4/5 := by
    rw [abs_of_neg (by norm_num)]
    norm_num
  refine ⟨?_, by rw [habs]; norm_num, ?_⟩
  · simp only [generate_correlation_hypotheses, cexCorrelations,
      List.map_cons, List.map_nil, List.append_nil, List.getD_cons_zero,
      mkPositiveCorrelationHypothesis]
    rw [if_neg (by norm_num)]
  · rw [habs, if_pos (by norm_num)]
    simp

def witCorrelations : CorrelationsSection :=
  ⟨[⟨"m", "s", 39/50⟩], [⟨"p", "v", -(17/20)⟩]⟩

theorem c1_witness :
    (generate_correlation_hypotheses (some witCorrelations)).length =
      witCorrelations.strong_positive.length + witCorrelations.strong_negative.length
    ∧ ((generate_correlation_hypotheses (some witCorrelations)).getD 0 defaultHypothesis).statistical_test = "pearson_correlation"
    ∧ ((generate_correlation_hypotheses (some witCorrelations)).getD 0 defaultHypothesis).confidence = some (min |(witCorrelations.strong_positive.getD 0 defaultCorrelationEntry).correlation| ((19 : ℚ)/20))
    ∧ ((generate_correlation_hypotheses (some witCorrelations)).getD 0 defaultHypothesis).expected_effect_size = some (if (7 : ℚ)/10 < (witCorrelations.strong_positive.getD 0 defaultCorrelationEntry).correlation then "large" else "medium")
    ∧ ((generate_correlation_hypotheses (some witCorrelations)).getD (witCorrelations.strong_positive.length + 0) defaultHypothesis).statistical_test = "pearson_correlation"
    ∧ ((generate_correlation_hypotheses (some witCorrelations)).getD (witCorrelations.strong_positive.length + 0) defaultHypothesis).confidence = some (min |(witCorrelations.strong_negative.getD 0 defaultCorrelationEntry).correlation| ((19 : ℚ)/20))
    ∧ ((generate_correlation_hypotheses (some witCorrelations)).getD (witCorrelations.strong_positive.length + 0) defaultHypothesis).expected_effect_size = some (if (7 : ℚ)/10 < |(witCorrelations.strong_negative.getD 0 defaultCorrelationEntry).correlation| then "large" else "medium") := by
  have h := c1_correlation_hypothesis_fields witCorrelations 0 0
  have hp := h.2.1 (by norm_num [witCorrelations])
  have hn := h.2.2 (by norm_num [witCorrelations])
  exact ⟨h.1, hp.1, hp.2.1, hp.2.2, hn.1, hn.2.1, hn.2.2⟩

/-- C8 (amended): Hedges g equals Cohen d times the bias-correction factor
1 - 3/(4(n1+n2-2) - 1) (they share the same pooled denominator), and for
samples of at least two values each the factor lies in [4/7, 1), so
|g| ≤ |d| always, strictly whenever d is nonzero; at d = 0 both effect sizes
are 0 and the magnitudes are equal, not strictly ordered. -/
theorem c8_hedges_vs_cohens (o : Oracle) (s1 s2 : Series)
    (h1 : 2 ≤ (numsOf (dropna s1.cells)).length)
    (h2 : 2 ≤ (numsOf (dropna s2.cells)).length) :
    (calculate_hedges_g o s1 s2).statistic =
      (calculate_cohens_d o s1 s2).statistic *
        (1 - 3 / (4 * (((numsOf (dropna s1.cells)).length : ℚ) +
          ((numsOf (dropna s2.cells)).length : ℚ) - 2) - 1))
    ∧ |(calculate_hedges_g o s1 s2).statistic| ≤ |(calculate_cohens_d o s1 s2).statistic|
    ∧ ((calculate_cohens_d o s1 s2).statistic ≠ 0 →
        |(calculate_hedges_g o s1 s2).statistic| < |(calculate_cohens_d o s1 s2).statistic|) := by
  have hn1 : (2 : ℚ) ≤ ((numsOf (dropna s1.cells)).length : ℚ) := by exact_mod_cast h1
  have hn2 : (2 : ℚ) ≤ ((numsOf (dropna s2.cells)).length : ℚ) := by exact_mod_cast h2
  set n1 : ℚ := ((numsOf (dropna s1.cells)).length : ℚ)
  set n2 : ℚ := ((numsOf (dropna s2.cells)).length : ℚ)
  have hden : (7 : ℚ) ≤ 4 * (n1 + n2 - 2) - 1 := by linarith
  have hdenpos : (0 : ℚ) < 4 * (n1 + n2 - 2) - 1 := by linarith
  have hfrac : 3 / (4 * (n1 + n2 - 2) - 1) ≤ 3 / 7 := by
    gcongr
  have hfracpos : 0 < 3 / (4 * (n1 + n2 - 2) - 1) := by positivity
  have hcf0 : 0 ≤ 1 - 3 / (4 * (n1 + n2 - 2) - 1) := by linarith
  have hcf1 : 1 - 3 / (4 * (n1 + n2 - 2) - 1) < 1 := by linarith
  have hgd : (calculate_hedges_g o s1 s2).statistic =
      (calculate_cohens_d o s1 s2).statistic * (1 - 3 / (4 * (n1 + n2 - 2) - 1)) := rfl
  refine ⟨hgd, ?_, ?_⟩
  · rw [hgd, abs_mul, abs_of_nonneg hcf0]
    exact mul_le_of_le_one_right (abs_nonneg _) hcf1.le
  · intro hd
    rw [hgd, abs_mul, abs_of_nonneg hcf0]
    have hlt : |(calculate_cohens_d o s1 s2).statistic| * (1 - 3 / (4 * (n1 + n2 - 2) - 1)) <
        |(calculate_cohens_d o s1 s2).statistic| * 1 :=
      mul_lt_mul_of_pos_left hcf1 (abs_pos.mpr hd)
    simpa using hlt

def hedgesSample1 : Series := ⟨"g1", [Cell.num 0, Cell.num 2]⟩
def hedgesSample2 : Series := ⟨"g2", [Cell.num 1, Cell.num 1]⟩
def hedgesSample3 : Series := ⟨"g3", [Cell.num 0, Cell.num 0]⟩

theorem c8_counterexample :
    (calculate_cohens_d oracleEx hedgesSample1 hedgesSample2).statistic = 0
    ∧ (calculate_hedges_g oracleEx hedgesSample1 hedgesSample2).statistic = 0
    ∧ ¬(|(calculate_hedges_g oracleEx hedgesSample1 hedgesSample2).statistic| <
        |(calculate_cohens_d oracleEx hedgesSample1 hedgesSample2).statistic|) := by
  have hd : (calculate_cohens_d oracleEx hedgesSample1 hedgesSample2).statistic = 0 := by
    simp [calculate_cohens_d, hedgesSample1, hedgesSample2, oracleEx, numsOf, dropna,
      qmean, qvar]
  have hg : (calculate_hedges_g oracleEx hedgesSample1 hedgesSample2).statistic = 0 := by
    simp [calculate_hedges_g, hedgesSample1, hedgesSample2, oracleEx, numsOf, dropna,
      qmean, qvar]
  refine ⟨hd, hg, ?_⟩
  rw [hd, hg]
  simp

theorem c8_witness :
    (calculate_cohens_d oracleEx hedgesSample1 hedgesSample3).statistic = 1
    ∧ (calculate_hedges_g oracleEx hedgesSample1 hedgesSample3).statistic = 4/7
    ∧ |(calculate_hedges_g oracleEx hedgesSample1 hedgesSample3).statistic| <
      |(calculate_cohens_d oracleEx hedgesSample1 hedgesSample3).statistic| := by
  have hd : (calculate_cohens_d oracleEx hedgesSample1 hedgesSample3).statistic = 1 := by
    simp [calculate_cohens_d, hedgesSample1, hedgesSample3, oracleEx, numsOf, dropna,
      qmean, qvar]
    norm_num
  have hg : (calculate_hedges_g oracleEx hedgesSample1 hedgesSample3).statistic = 4/7 := by
    simp [calculate_hedges_g, hedgesSample1, hedgesSample3, oracleEx, numsOf, dropna,
      qmean, qvar]
    norm_num
  refine ⟨hd, hg, ?_⟩
  exact (c8_hedges_vs_cohens oracleEx hedgesSample1 hedgesSample3
    (by decide)
    (by decide)).2.2 (by rw [hd]; norm_num)

theorem lookup_multiple_regression (o : Oracle) :
    (test_methods o).lookup "multiple_regression" = none := by
  simp [test_methods, List.lookup]

theorem lookup_causal_inference (o : Oracle) :
    (test_methods o).lookup "causal_inference" = none := by
  simp [test_methods, List.lookup]

theorem exec_results_filter_unknown (o : Oracle) (df : DataFrame) :
    ∀ (specs : List TestSpec) (acc : List TestResult),
      (specs.filter (fun s => decide (s.test ≠ "multiple_regression") &&
        decide (s.test ≠ "causal_inference"))).foldl
        (fun acc spec => match execute_single_test o df spec with
          | Except.ok (some r) => acc ++ [r]
          | Except.ok none => acc
          | Except.error _ => acc) acc =
      specs.foldl
        (fun acc spec => match execute_single_test o df spec with
          | Except.ok (some r) => acc ++ [r]
          | Except.ok none => acc
          | Except.error _ => acc) acc := by
  intro specs
  induction specs with
  | nil => intro acc; rfl
  | cons s rest ih =>
      intro acc
      by_cases hs : s.test = "multiple_regression" ∨ s.test = "causal_inference"
      · have hstep : execute_single_test o df s = Except.ok none := by
          rcases hs with h | h <;>
            simp [execute_single_test, h, lookup_multiple_regression,
              lookup_causal_inference]
        have hfilter : (s :: rest).filter (fun s => decide (s.test ≠ "multiple_regression") &&
            decide (s.test ≠ "causal_inference")) =
            rest.filter (fun s => decide (s.test ≠ "multiple_regression") &&
              decide (s.test ≠ "causal_inference")) := by
          rcases hs with h | h <;> simp [List.filter_cons, h]
        rw [hfilter, ih, List.foldl_cons, hstep]
      · push_neg at hs
        have hfilter : (s :: rest).filter (fun s => decide (s.test ≠ "multiple_regression") &&
            decide (s.test ≠ "causal_inference")) =
            s :: rest.filter (fun s => decide (s.test ≠ "multiple_regression") &&
              decide (s.test ≠ "causal_inference")) := by
          simp [List.filter_cons, hs.1, hs.2]
        rw [hfilter, List.foldl_cons, List.foldl_cons, ih]

/-- C9: the dispatch table has no entry for multiple_regression or
causal_inference, the identifiers the generator assigns to every prediction
and causation hypothesis, so such specifications yield no TestResult
(_execute_single_test returns None) and removing them from a suite leaves the
suite output unchanged: no prediction or causation hypothesis can ever yield a
TestResult from execute_test_suite. -/
theorem c9_prediction_causation_never_tested (o : Oracle) (df : DataFrame)
    (spec : TestSpec) (method : String) (specs : List TestSpec)
    (numericVars catVars : List String) (varOf : String → ℚ)
    (corrs : Option CorrelationsSection) :
    (spec.test = "multiple_regression" ∨ spec.test = "causal_inference" →
      execute_single_test o df spec = Except.ok none)
    ∧ execute_test_suite o method df
        (specs.filter (fun s => decide (s.test ≠ "multiple_regression") &&
          decide (s.test ≠ "causal_inference"))) =
      execute_test_suite o method df specs
    ∧ (∀ h ∈ generate_prediction_hypotheses numericVars catVars varOf,
        h.statistical_test = "multiple_regression")
    ∧ (∀ h ∈ generate_causation_hypotheses corrs,
        h.statistical_test = "causal_inference") := by
  refine ⟨?_, ?_, ?_, ?_⟩
  · rintro (h | h) <;>
      simp [execute_single_test, h, lookup_multiple_regression, lookup_causal_inference]
  · have hres : exec_results o df
        (specs.filter (fun s => decide (s.test ≠ "multiple_regression") &&
          decide (s.test ≠ "causal_inference"))) = exec_results o df specs := by
      simpa [exec_results] using exec_results_filter_unknown o df specs []
    exact congrArg (correction_phase method) hres
  · intro h hm
    simp only [generate_prediction_hypotheses, List.mem_filterMap] at hm
    obtain ⟨outcome, _, heq⟩ := hm
    by_cases h1 : varOf outcome = 0
    · simp [h1] at heq
    · by_cases h2 : 2 ≤ ((numericVars ++ catVars).filter
          (fun v => decide (v ≠ outcome))).length
      · simp only [if_neg h1, if_pos h2] at heq
        rw [← Option.some_inj.mp heq]
        rfl
      · rw [if_neg h1, if_neg h2] at heq
        exact absurd heq (by simp)
  · intro h hm
    match corrs with
    | none => simp [generate_causation_hypotheses] at hm
    | some c =>
        simp only [generate_causation_hypotheses, List.mem_filterMap] at hm
        obtain ⟨e, _, heq⟩ := hm
        by_cases hp : is_plausible_causal_relationship e.var1 e.var2
        · rw [if_pos hp] at heq
          rw [← Option.some_inj.mp heq]
          rfl
        · rw [if_neg hp] at heq
          exact absurd heq (by simp)

theorem c9_witness :
    execute_single_test oracleEx dfEx ⟨"multiple_regression", []⟩ = Except.ok none
    ∧ execute_single_test oracleEx dfEx ⟨"causal_inference", ["x", "y"]⟩ =
        Except.ok none := by
  refine ⟨?_, ?_⟩
  · exact (c9_prediction_causation_never_tested oracleEx dfEx ⟨"multiple_regression", []⟩
      "bonferroni" [] [] [] (fun _ => 1) none).1 (Or.inl rfl)
  · exact (c9_prediction_causation_never_tested oracleEx dfEx ⟨"causal_inference", ["x", "y"]⟩
      "bonferroni" [] [] [] (fun _ => 1) none).1 (Or.inr rfl)

/-- C6 (amended): an unknown correction_method aborts the pipeline call only
when the correction routine is actually invoked, that is when the batch
collected at least two results and at least one carries a p-value (the
no-correction fall-through then crashes calling .tolist() on a plain list,
an AttributeError); with at most one collected result, or none with a
p-value, the unknown method is silently ignored and the batch returns its
results. -/
theorem c6_unknown_correction_method (method : String)
    (hm : method ∉ (["benjamini_hochberg", "bonferroni", "holm"] : List String))
    (o : Oracle) (df : DataFrame) (specs : List TestSpec) :
    (2 ≤ (exec_results o df specs).length →
      (exec_results o df specs).filterMap (fun r => r.p_value) ≠ [] →
      execute_test_suite o method df specs =
        Except.error "AttributeError: list object has no attribute tolist")
    ∧ ((exec_results o df specs).length ≤ 1 →
      execute_test_suite o method df specs = Except.ok (exec_results o df specs))
    ∧ ((exec_results o df specs).filterMap (fun r => r.p_value) = [] →
      execute_test_suite o method df specs = Except.ok (exec_results o df specs)) := by
  have hne1 : method ≠ "benjamini_hochberg" := fun h => hm (by rw [h]; simp)
  have hne2 : method ≠ "bonferroni" := fun h => hm (by rw [h]; simp)
  have hne3 : method ≠ "holm" := fun h => hm (by rw [h]; simp)
  refine ⟨fun hlen hps => ?_, fun hlen => ?_, fun hps => ?_⟩
  · have hgt : 1 < (exec_results o df specs).length := by omega
    have hempty : ((exec_results o df specs).filterMap (fun r => r.p_value)).isEmpty = false := by
      simpa [List.isEmpty_iff] using hps
    simp [execute_test_suite, correction_phase, hgt, hempty,
      apply_multiple_comparison_correction, hne1, hne2, hne3]
  · have hgt : ¬ 1 < (exec_results o df specs).length := by omega
    simp [execute_test_suite, correction_phase, hgt]
  · by_cases hgt : 1 < (exec_results o df specs).length
    · have hempty : ((exec_results o df specs).filterMap (fun r => r.p_value)).isEmpty = true := by
        simp [List.isEmpty_iff, hps]
      simp [execute_test_suite, correction_phase, hgt, hempty]
    · simp [execute_test_suite, correction_phase, hgt]

theorem c6_counterexample :
    (execute_test_suite oracleEx "fdr_by" dfEx [⟨"anderson_darling", ["x"]⟩]).map
        (fun rs => rs.map (fun r => (r.p_value, r.corrected_p_value))) =
      Except.ok [(some ((1 : ℚ)/20), none)] := by
  rfl

theorem length_insertBy {α : Type} (le : α → α → Bool) (x : α) :
    ∀ l : List α, (insertBy le x l).length = l.length + 1
  | [] => rfl
  | y :: ys => by
      simp only [insertBy]
      split
      · rfl
      · simp [length_insertBy le x ys]

theorem length_sortBy {α : Type} (le : α → α → Bool) :
    ∀ l : List α, (sortBy le l).length = l.length
  | [] => rfl
  | x :: xs => by simp [sortBy, length_insertBy, length_sortBy le xs]

theorem length_minAccumFrom (m : ℚ) :
    ∀ l : List ℚ, (minAccumFrom m l).length = l.length
  | [] => rfl
  | x :: xs => by simp [minAccumFrom, length_minAccumFrom (min m x) xs]

theorem length_minAccum : ∀ l : List ℚ, (minAccum l).length = l.length
  | [] => rfl
  | x :: xs => by simp [minAccum, length_minAccumFrom]

theorem length_maxAccumFrom (m : ℚ) :
    ∀ l : List ℚ, (maxAccumFrom m l).length = l.length
  | [] => rfl
  | x :: xs => by simp [maxAccumFrom, length_maxAccumFrom (max m x) xs]

theorem length_maxAccum : ∀ l : List ℚ, (maxAccum l).length = l.length
  | [] => rfl
  | x :: xs => by simp [maxAccum, length_maxAccumFrom]

theorem length_benjaminiHochberg (ps : List ℚ) :
    (benjaminiHochbergCorrect ps).length = ps.length := by
  simp [benjaminiHochbergCorrect, length_sortBy, length_minAccum, List.length_zip,
    List.enum_length]

theorem length_bonferroni (ps : List ℚ) :
    (bonferroniCorrect ps).length = ps.length := by
  simp [bonferroniCorrect]

theorem length_holm (ps : List ℚ) :
    (holmCorrect ps).length = ps.length := by
  simp [holmCorrect, length_sortBy, length_maxAccum, List.length_zip,
    List.enum_length]

theorem length_writeBackCorrected :
    ∀ (rs : List TestResult) (cs : List ℚ),
      (writeBackCorrected rs cs).length = rs.length
  | [], _ => rfl
  | r :: rs, cs => by
      cases hp : r.p_value <;> cases cs <;>
        simp [writeBackCorrected, hp, length_writeBackCorrected rs]

theorem writeBack_pairs :
    ∀ (rs : List TestResult) (cs : List ℚ),
      cs.length = (rs.filterMap (fun r => r.p_value)).length →
      (writeBackCorrected rs cs).filterMap
        (fun r => r.p_value.map (fun p => (p, r.corrected_p_value))) =
      (rs.filterMap (fun r => r.p_value)).zip (cs.map some)
  | [], cs => by
      intro h
      simp [writeBackCorrected]
  | r :: rs, cs => by
      intro h
      cases hp : r.p_value with
      | none =>
          have hrec := writeBack_pairs rs cs (by simpa [List.filterMap_cons, hp] using h)
          simp [writeBackCorrected, hp, List.filterMap_cons, hrec]
      | some p =>
          cases cs with
          | nil => simp [List.filterMap_cons, hp] at h
          | cons c cs2 =>
              have hrec := writeBack_pairs rs cs2
                (by simpa [List.filterMap_cons, hp] using h)
              simp [writeBackCorrected, hp, List.filterMap_cons, hrec]

theorem writeBack_none_positions :
    ∀ (rs : List TestResult) (cs : List ℚ) (i : ℕ),
      i < rs.length → (rs.getD i defaultTestResult).p_value = none →
      (writeBackCorrected rs cs).getD i defaultTestResult = rs.getD i defaultTestResult
  | [], _, i => by
      intro h _
      exact absurd h (by simp)
  | r :: rs, cs, 0 => by
      intro _ hp0
      rw [List.getD_cons_zero] at hp0
      cases hp : r.p_value with
      | none => cases cs <;> simp [writeBackCorrected, hp]
      | some p => rw [hp] at hp0; exact absurd hp0 (by simp)
  | r :: rs, cs, (i+1) => by
      intro hi hp
      have hi2 : i < rs.length := by simpa using hi
      have hp2 : (rs.getD i defaultTestResult).p_value = none := by
        simpa [List.getD_cons_succ] using hp
      cases hpr : r.p_value with
      | none =>
          simp only [writeBackCorrected, hpr, List.getD_cons_succ]
          exact writeBack_none_positions rs cs i hi2 hp2
      | some p =>
          cases cs with
          | nil =>
              simp only [writeBackCorrected, hpr, List.getD_cons_succ]
              exact writeBack_none_positions rs [] i hi2 hp2
          | cons c cs2 =>
              simp only [writeBackCorrected, hpr, List.getD_cons_succ]
              exact writeBack_none_positions rs cs2 i hi2 hp2

theorem writeBack_nil_of_no_pvalues :
    ∀ rs : List TestResult,
      rs.filterMap (fun r => r.p_value) = [] → writeBackCorrected rs [] = rs
  | [] => by intro _; rfl
  | r :: rs => by
      intro h
      cases hp : r.p_value with
      | some p => simp [List.filterMap_cons, hp] at h
      | none =>
          simp only [List.filterMap_cons, hp] at h
          simp [writeBackCorrected, hp, writeBack_nil_of_no_pvalues rs h]

theorem pairs_nil_of_no_pvalues (rs : List TestResult)
    (h : rs.filterMap (fun r => r.p_value) = []) :
    rs.filterMap (fun r => r.p_value.map (fun p => (p, r.corrected_p_value))) = [] := by
  rw [List.filterMap_eq_nil_iff] at h ⊢
  intro r hr
  simp [h r hr]

theorem correction_phase_of_ok (method : String) (results : List TestResult)
    (cs : List ℚ) (hgt : 1 < results.length)
    (hA : apply_multiple_comparison_correction method
      (results.filterMap (fun r => r.p_value)) = Except.ok cs)
    (hnil : results.filterMap (fun r => r.p_value) = [] → cs = []) :
    correction_phase method results = Except.ok (writeBackCorrected results cs) := by
  by_cases hempty : (results.filterMap (fun r => r.p_value)).isEmpty
  · have hps : results.filterMap (fun r => r.p_value) = [] := by
      simpa [List.isEmpty_iff] using hempty
    rw [hnil hps]
    simp [correction_phase, hgt, hempty, writeBack_nil_of_no_pvalues results hps]
  · simp [correction_phase, hgt, hempty, hA]

/-- C2 (amended): for every batch of at least two collected TestResults, the
corrector extracts exactly the subset with a non-absent p-value, the corrected
list returned by the selected method has the same length as that subset, the
i-th p-valued result receives the i-th corrected value (original relative
order), results lacking a p-value are left untouched, and under bonferroni
corrected[i] = min(1, p_values[i] * k) with k the count of corrected tests;
batches with fewer than two results — including a batch of exactly one result
carrying a p-value — are returned without any correction (see the
counterexample). -/
theorem c2_multiple_comparison_correction (results : List TestResult) (method : String)
    (hm : method ∈ (["benjamini_hochberg", "bonferroni", "holm"] : List String))
    (h2 : 2 ≤ results.length) :
    ∃ cs : List ℚ,
      apply_multiple_comparison_correction method
        (results.filterMap (fun r => r.p_value)) = Except.ok cs
      ∧ cs.length = (results.filterMap (fun r => r.p_value)).length
      ∧ correction_phase method results = Except.ok (writeBackCorrected results cs)
      ∧ (writeBackCorrected results cs).length = results.length
      ∧ (writeBackCorrected results cs).filterMap
          (fun r => r.p_value.map (fun p => (p, r.corrected_p_value))) =
        (results.filterMap (fun r => r.p_value)).zip (cs.map some)
      ∧ (∀ i, i < results.length → (results.getD i defaultTestResult).p_value = none →
          (writeBackCorrected results cs).getD i defaultTestResult =
            results.getD i defaultTestResult)
      ∧ (method = "bonferroni" →
          cs = (results.filterMap (fun r => r.p_value)).map
            (fun p => min 1 (p * ((results.filterMap (fun r => r.p_value)).length : ℚ)))) := by
  have hgt : 1 < results.length := by omega
  have hm3 : method = "benjamini_hochberg" ∨ method = "bonferroni" ∨ method = "holm" := by
    simpa using hm
  obtain h | h | h := hm3 <;> subst h
  · refine ⟨benjaminiHochbergCorrect (results.filterMap (fun r => r.p_value)),
      by simp [apply_multiple_comparison_correction], length_benjaminiHochberg _, ?_, ?_, ?_, ?_, ?_⟩
    · exact correction_phase_of_ok _ results _ hgt
        (by simp [apply_multiple_comparison_correction]) (fun hps => by rw [hps]; rfl)
    · exact length_writeBackCorrected results _
    · exact writeBack_pairs results _ (length_benjaminiHochberg _)
    · exact fun i hi hp => writeBack_none_positions results _ i hi hp
    · intro habs
      exact absurd habs (by simp)
  · refine ⟨bonferroniCorrect (results.filterMap (fun r => r.p_value)),
      by simp [apply_multiple_comparison_correction], length_bonferroni _, ?_, ?_, ?_, ?_, ?_⟩
    · exact correction_phase_of_ok _ results _ hgt
        (by simp [apply_multiple_comparison_correction]) (fun hps => by rw [hps]; rfl)
    · exact length_writeBackCorrected results _
    · exact writeBack_pairs results _ (length_bonferroni _)
    · exact fun i hi hp => writeBack_none_positions results _ i hi hp
    · intro _
      refine List.map_congr_left ?_
      intro p _
      exact min_comm _ _
  · refine ⟨holmCorrect (results.filterMap (fun r => r.p_value)),
      by simp [apply_multiple_comparison_correction], length_holm _, ?_, ?_, ?_, ?_, ?_⟩
    · exact correction_phase_of_ok _ results _ hgt
        (by simp [apply_multiple_comparison_correction]) (fun hps => by rw [hps]; rfl)
    · exact length_writeBackCorrected results _
    · exact writeBack_pairs results _ (length_holm _)
    · exact fun i hi hp => writeBack_none_positions results _ i hi hp
    · intro habs
      exact absurd habs (by simp)

def resW1 : TestResult :=
  { test_name := "t1", statistic := 0, p_value := some (3/5), vars := ["a"], sample_sizes := [10] }

def resW2 : TestResult :=
  { test_name := "t2", statistic := 0, p_value := none, vars := ["b"], sample_sizes := [10] }

def resW3 : TestResult :=
  { test_name := "t3", statistic := 0, p_value := some (1/4), vars := ["c"], sample_sizes := [10] }

theorem c2_witness :
    (correction_phase "bonferroni" [resW1, resW2, resW3]).map
        (fun rs => rs.map (fun r => r.corrected_p_value)) =
      Except.ok [some 1, none, some ((1 : ℚ)/2)]
    ∧ ∃ cs : List ℚ,
      apply_multiple_comparison_correction "bonferroni"
        ([resW1, resW2, resW3].filterMap (fun r => r.p_value)) = Except.ok cs
      ∧ cs.length = ([resW1, resW2, resW3].filterMap (fun r => r.p_value)).length
      ∧ correction_phase "bonferroni" [resW1, resW2, resW3] =
          Except.ok (writeBackCorrected [resW1, resW2, resW3] cs)
      ∧ (writeBackCorrected [resW1, resW2, resW3] cs).length =
          ([resW1, resW2, resW3] : List TestResult).length
      ∧ (writeBackCorrected [resW1, resW2, resW3] cs).filterMap
          (fun r => r.p_value.map (fun p => (p, r.corrected_p_value))) =
        ([resW1, resW2, resW3].filterMap (fun r => r.p_value)).zip (cs.map some)
      ∧ (∀ i, i < ([resW1, resW2, resW3] : List TestResult).length →
          (([resW1, resW2, resW3] : List TestResult).getD i defaultTestResult).p_value = none →
          (writeBackCorrected [resW1, resW2, resW3] cs).getD i defaultTestResult =
            ([resW1, resW2, resW3] : List TestResult).getD i defaultTestResult)
      ∧ ("bonferroni" = "bonferroni" →
          cs = ([resW1, resW2, resW3].filterMap (fun r => r.p_value)).map
            (fun p => min 1 (p * (([resW1, resW2, resW3].filterMap
              (fun r => r.p_value)).length : ℚ)))) := by
  constructor
  · have hps : [resW1, resW2, resW3].filterMap (fun r => r.p_value) = [(3 : ℚ)/5, 1/4] := rfl
    have hbc : bonferroniCorrect [(3 : ℚ)/5, 1/4] = [1, 1/2] := by
      norm_num [bonferroniCorrect, min_def]
    have hcp := correction_phase_of_ok "bonferroni" [resW1, resW2, resW3] [1, 1/2]
      (by simp)
      (by rw [hps, show apply_multiple_comparison_correction "bonferroni" [(3 : ℚ)/5, 1/4] = Except.ok (bonferroniCorrect [(3 : ℚ)/5, 1/4]) from rfl, hbc])
      (by intro habs; rw [hps] at habs; simp at habs)
    rw [hcp]
    rfl
  · exact c2_multiple_comparison_correction [resW1, resW2, resW3] "bonferroni"
      (by simp) (by simp)

theorem c2_counterexample :
    (execute_test_suite oracleEx "bonferroni" dfEx [⟨"anderson_darling", ["x"]⟩]).map
        (fun rs => rs.map (fun r => (r.p_value, r.corrected_p_value))) =
      Except.ok [(some ((1 : ℚ)/20), none)] := by
  rfl

theorem c6_witness :
    execute_test_suite oracleEx "fdr_by" dfEx
        [⟨"anderson_darling", ["x"]⟩, ⟨"anderson_darling", ["y"]⟩] =
      Except.error "AttributeError: list object has no attribute tolist"
    ∧ execute_test_suite oracleEx "fdr_by" dfEx [] =
        Except.ok (exec_results oracleEx dfEx []) := by
  constructor
  · exact (c6_unknown_correction_method "fdr_by" (by simp) oracleEx dfEx
      [⟨"anderson_darling", ["x"]⟩, ⟨"anderson_darling", ["y"]⟩]).1 (by decide) (by decide)
  · exact (c6_unknown_correction_method "fdr_by" (by simp) oracleEx dfEx []).2.1 (by decide)

theorem qualityOf_pos (r : ℚ) : 0 < qualityOf r := by
  unfold qualityOf
  split_ifs <;> norm_num

theorem qualityOf_antitone {a b : ℚ} (h : a ≤ b) : qualityOf b ≤ qualityOf a := by
  unfold qualityOf
  split_ifs <;> linarith

theorem columnFactor_pos (df : DataFrame) (v : String) : 0 < columnFactor df v := by
  unfold columnFactor
  split_ifs
  · exact qualityOf_pos _
  · norm_num

theorem nullCount_append_complete (df : DataFrame) (newRows : List (String → Cell))
    (v : String) (hv : ∀ r ∈ newRows, r v ≠ Cell.null) :
    nullCount { cols := df.cols, rows := df.rows ++ newRows } v = nullCount df v := by
  unfold nullCount
  simp only [List.filter_append, List.length_append]
  have hnil : newRows.filter (fun r => decide (r v = Cell.null)) = [] := by
    rw [List.filter_eq_nil_iff]
    intro r hr
    simpa using hv r hr
  simp [hnil]

theorem div_mono_den (a c m : ℕ) (hac : a ≤ c) :
    (a : ℚ) / ((c : ℚ) + (m : ℚ)) ≤ (a : ℚ) / (c : ℚ) := by
  rcases Nat.eq_zero_or_pos c with hc | hc
  · have ha : a = 0 := by omega
    subst ha
    simp
  · have hc0 : (0 : ℚ) < c := by exact_mod_cast hc
    apply div_le_div_of_nonneg_left (by positivity) hc0
    exact le_add_of_nonneg_right (by positivity)

theorem nullFrac_append_le (df : DataFrame) (newRows : List (String → Cell))
    (v : String) (hv : ∀ r ∈ newRows, r v ≠ Cell.null) :
    nullFrac { cols := df.cols, rows := df.rows ++ newRows } v ≤ nullFrac df v := by
  unfold nullFrac
  rw [nullCount_append_complete df newRows v hv]
  simp only [List.length_append]
  push_cast
  exact div_mono_den (nullCount df v) df.rows.length newRows.length
    (List.length_filter_le _ _)

theorem columnFactor_append_le (df : DataFrame) (newRows : List (String → Cell))
    (v : String) (hv : ∀ r ∈ newRows, r v ≠ Cell.null) :
    columnFactor df v ≤ columnFactor { cols := df.cols, rows := df.rows ++ newRows } v := by
  unfold columnFactor
  by_cases hc : v ∈ df.cols
  · rw [if_pos hc, if_pos hc]
    exact qualityOf_antitone (nullFrac_append_le df newRows v hv)
  · rw [if_neg hc, if_neg hc]

theorem foldl_mul_nonneg (f : String → ℚ) :
    ∀ (vs : List String) (a : ℚ), 0 ≤ a → (∀ v ∈ vs, 0 ≤ f v) →
      0 ≤ vs.foldl (fun s v => s * f v) a
  | [], a => by
      intro ha _
      simpa using ha
  | v :: vs, a => by
      intro ha hf
      simp only [List.foldl_cons]
      exact foldl_mul_nonneg f vs (a * f v) (mul_nonneg ha (hf v (by simp)))
        (fun w hw => hf w (by simp [hw]))

theorem foldl_mul_le (f g : String → ℚ) :
    ∀ (vs : List String) (a b : ℚ), 0 ≤ a → a ≤ b →
      (∀ v ∈ vs, 0 < f v) → (∀ v ∈ vs, f v ≤ g v) →
      vs.foldl (fun s v => s * f v) a ≤ vs.foldl (fun s v => s * g v) b
  | [], a, b => by
      intro _ hab _ _
      simpa using hab
  | v :: vs, a, b => by
      intro ha hab hf hfg
      simp only [List.foldl_cons]
      exact foldl_mul_le f g vs (a * f v) (b * g v)
        (mul_nonneg ha (le_of_lt (hf v (by simp))))
        (mul_le_mul hab (hfg v (by simp)) (le_of_lt (hf v (by simp))) (le_trans ha hab))
        (fun w hw => hf w (by simp [hw])) (fun w hw => hfg w (by simp [hw]))

theorem completeRows_append (df : DataFrame) (newRows : List (String → Cell))
    (vs : List String) (hcomplete : ∀ r ∈ newRows, ∀ v ∈ vs, r v ≠ Cell.null) :
    completeRows { cols := df.cols, rows := df.rows ++ newRows } vs =
      completeRows df vs + newRows.length := by
  unfold completeRows
  simp only [List.filter_append, List.length_append]
  have hself : newRows.filter (fun r => vs.all (fun v => decide (r v ≠ Cell.null))) = newRows := by
    rw [List.filter_eq_self]
    intro r hr
    simp only [List.all_eq_true]
    intro v hv
    simpa using hcomplete r hr v hv
  rw [hself]

theorem sampleSizeFactor_nonneg (m n : ℕ) : 0 ≤ sampleSizeFactor m n := by
  unfold sampleSizeFactor
  split_ifs <;> norm_num

theorem sampleSizeFactor_mono (m : ℕ) {n n2 : ℕ} (h : n ≤ n2) :
    sampleSizeFactor m n ≤ sampleSizeFactor m n2 := by
  unfold sampleSizeFactor
  split_ifs <;> linarith

theorem simplicityBonus_nonneg (k n : ℕ) : 0 ≤ simplicityBonus k n := by
  unfold simplicityBonus
  split_ifs <;> norm_num

theorem simplicityBonus_mono (k : ℕ) {n n2 : ℕ} (h : n ≤ n2) :
    simplicityBonus k n ≤ simplicityBonus k n2 := by
  unfold simplicityBonus
  split_ifs with h1 h2
  · exact le_refl _
  · exact absurd ⟨h1.1, lt_of_lt_of_le h1.2 h⟩ h2
  · linarith
  · exact le_refl _

/-- C4: testability scoring is monotonic in complete data: whenever the score
computation succeeds on a dataset (all listed variables present as columns, so
the dropna call does not raise), appending rows whose cells are non-null for
all of the hypothesis variables yields a score at least as large — every
factor (per-variable quality, sample-size adequacy, simplicity bonus) is
non-decreasing and the final cap at 1.0 preserves order. -/
theorem c4_testability_monotone (minSampleSize : ℕ) (df : DataFrame) (h : Hypothesis)
    (newRows : List (String → Cell))
    (hcomplete : ∀ r ∈ newRows, ∀ v ∈ h.vars, r v ≠ Cell.null)
    (s : ℚ) (hs : calculate_testability_score minSampleSize df h = Except.ok s) :
    ∃ s2 : ℚ, calculate_testability_score minSampleSize
        { cols := df.cols, rows := df.rows ++ newRows } h = Except.ok s2
      ∧ s ≤ s2 := by
  by_cases hall : h.vars.all (fun v => decide (v ∈ df.cols))
  · simp only [calculate_testability_score] at hs
    rw [if_pos hall, Except.ok.injEq] at hs
    subst hs
    refine ⟨min ((h.vars.foldl
        (fun s v => s * columnFactor { cols := df.cols, rows := df.rows ++ newRows } v) 1) *
        sampleSizeFactor minSampleSize
          (completeRows { cols := df.cols, rows := df.rows ++ newRows } h.vars) *
        simplicityBonus h.vars.length
          (completeRows { cols := df.cols, rows := df.rows ++ newRows } h.vars)) 1, ?_, ?_⟩
    · simp only [calculate_testability_score]
      rw [if_pos hall]
    · have hA0 : 0 ≤ h.vars.foldl (fun s v => s * columnFactor df v) 1 :=
        foldl_mul_nonneg _ h.vars 1 zero_le_one (fun v _ => (columnFactor_pos df v).le)
      have hA02 : 0 ≤ h.vars.foldl
          (fun s v => s * columnFactor { cols := df.cols, rows := df.rows ++ newRows } v) 1 :=
        foldl_mul_nonneg _ h.vars 1 zero_le_one (fun v _ => (columnFactor_pos _ v).le)
      have hA : h.vars.foldl (fun s v => s * columnFactor df v) 1 ≤
          h.vars.foldl
            (fun s v => s * columnFactor { cols := df.cols, rows := df.rows ++ newRows } v) 1 :=
        foldl_mul_le _ _ h.vars 1 1 zero_le_one le_rfl
          (fun v _ => columnFactor_pos df v)
          (fun v hv => columnFactor_append_le df newRows v (fun r hr => hcomplete r hr v hv))
      have hnEq : completeRows { cols := df.cols, rows := df.rows ++ newRows } h.vars =
          completeRows df h.vars + newRows.length :=
        completeRows_append df newRows h.vars hcomplete
      have hnLe : completeRows df h.vars ≤
          completeRows { cols := df.cols, rows := df.rows ++ newRows } h.vars := by
        rw [hnEq]
        omega
      have hB := sampleSizeFactor_mono minSampleSize hnLe
      have hC := simplicityBonus_mono h.vars.length hnLe
      refine min_le_min ?_ (le_refl 1)
      have h12 : h.vars.foldl (fun s v => s * columnFactor df v) 1 *
          sampleSizeFactor minSampleSize (completeRows df h.vars) ≤
          h.vars.foldl
            (fun s v => s * columnFactor { cols := df.cols, rows := df.rows ++ newRows } v) 1 *
          sampleSizeFactor minSampleSize
            (completeRows { cols := df.cols, rows := df.rows ++ newRows } h.vars) :=
        mul_le_mul hA hB (sampleSizeFactor_nonneg _ _) hA02
      exact mul_le_mul h12 hC (simplicityBonus_nonneg _ _)
        (mul_nonneg hA02 (sampleSizeFactor_nonneg _ _))
  · simp only [calculate_testability_score] at hs
    rw [if_neg hall] at hs
    exact absurd hs (by simp)

def hypOneVar : Hypothesis := { defaultHypothesis with vars := ["x"] }

def extraRow : String → Cell := fun _ => Cell.num 2

theorem c4_witness :
    calculate_testability_score 30 dfOneColumn hypOneVar = Except.ok ((1 : ℚ)/2)
    ∧ ∃ s2 : ℚ, calculate_testability_score 30
        { cols := dfOneColumn.cols, rows := dfOneColumn.rows ++ [extraRow] } hypOneVar =
        Except.ok s2 ∧ (1 : ℚ)/2 ≤ s2 := by
  have h1 : calculate_testability_score 30 dfOneColumn hypOneVar = Except.ok ((1 : ℚ)/2) := by
    have hcf : columnFactor dfOneColumn "x" = 1 := by
      rw [columnFactor, if_pos (by decide), nullFrac,
        show nullCount dfOneColumn "x" = 0 from by decide,
        show dfOneColumn.rows.length = 1 from by decide]
      norm_num [qualityOf]
    simp only [calculate_testability_score]
    rw [if_pos (by decide), show hypOneVar.vars = ["x"] from rfl,
      List.foldl_cons, List.foldl_nil, hcf,
      show completeRows dfOneColumn ["x"] = 1 from by decide]
    norm_num [sampleSizeFactor, simplicityBonus, min_def]
  exact ⟨h1, c4_testability_monotone 30 dfOneColumn hypOneVar [extraRow]
    (by decide) ((1 : ℚ)/2) h1⟩
